import Mathlib

/-!
Verification of the DeedRecreator geometry core.

This file gives a shallow embedding, in Lean 4, of the parts of the
repository that the specification's claims are about:

* the azimuth/bearing conversion functions and the line-segment
  recalculation (src/backend/domain/vectors.py),
* the domain model (Point, LineSegment, ArcSegment, Geometry, Parcel,
  GeometryLayer, Site) together with its storage-JSON codec
  (src/backend/domain/vectors.py),
* the versioning engine: save_geometry, undo, add_segment and the
  retention cleanup (src/backend/services/geometry_service.py).

Modelling conventions:

* Python floats are modelled as real numbers; the float operation
  `x % 360` is modelled exactly as `x - 360 * ⌊x / 360⌋`.
* Python exceptions are modelled with `Except` / explicit error values.
* `uuid.uuid4()` calls are modelled by fixed fresh identifier constants;
  no claim depends on the value of a generated identifier.
* The local file store of a session is modelled by a `Store` record:
  the optional `current.json` document plus the `version_<N>.json`
  retained files, the latter kept as an association list sorted by
  version number (the code derives retained file names injectively from
  the integer version, so a file is identified here by that integer).
* The free-form `attributes`/`metadata`/`style` mappings are carried
  verbatim as association lists of strings.
-/

namespace DeedRec

/-! ### Geometric math (src/backend/domain/vectors.py, lines 22-107)

`pymod360 x` is the Python expression `x % 360` on floats, read over ℝ. -/

noncomputable def pymod360 (x : ℝ) : ℝ := x - 360 * ⌊x / 360⌋

/-- Python's `str.upper()`, for the quadrant tokens. -/
def upper (s : String) : String := String.mk (s.data.map Char.toUpper)

/-- `azimuth_to_bearing` (vectors.py lines 22-67).  The source returns a
dict with keys `quadrant` and `bearing`; it is a pair here. -/
noncomputable def azimuth_to_bearing (azimuth : ℝ) : String × ℝ :=
  let a := pymod360 azimuth
  if 0 ≤ a ∧ a < 90 then ("NE", a)
  else if 90 ≤ a ∧ a < 180 then ("SE", 180 - a)
  else if 180 ≤ a ∧ a < 270 then ("SW", a - 180)
  else if 270 ≤ a ∧ a < 360 then ("NW", 360 - a)
  else ("NE", 0)

/-- `bearing_to_azimuth` (vectors.py lines 70-107); raising `ValueError`
is modelled by `Except.error`. -/
noncomputable def bearing_to_azimuth (quadrant : String) (bearing : ℝ) : Except String ℝ :=
  if bearing < 0 ∨ bearing > 90 then
    .error "Bearing must be in range 0-90 degrees"
  else
    let q := upper quadrant
    if q = "NE" then .ok (pymod360 bearing)
    else if q = "SE" then .ok (pymod360 (180 - bearing))
    else if q = "SW" then .ok (pymod360 (180 + bearing))
    else if q = "NW" then .ok (pymod360 (360 - bearing))
    else .error "Invalid quadrant"

/-- `math.atan2`, in the usual piecewise definition over ℝ. -/
noncomputable def atan2 (y x : ℝ) : ℝ :=
  if 0 < x then Real.arctan (y / x)
  else if x < 0 then
    (if 0 ≤ y then Real.arctan (y / x) + Real.pi else Real.arctan (y / x) - Real.pi)
  else
    (if 0 < y then Real.pi / 2 else if y < 0 then -(Real.pi / 2) else 0)

/-- `math.radians`. -/
noncomputable def radians (d : ℝ) : ℝ := d * Real.pi / 180

/-- `math.degrees`. -/
noncomputable def degrees (r : ℝ) : ℝ := r * 180 / Real.pi

/-! ### Basic facts about `pymod360` -/

lemma pymod360_eq_self {x : ℝ} (h0 : 0 ≤ x) (h1 : x < 360) : pymod360 x = x := by
  have hf : ⌊x / 360⌋ = 0 := by
    rw [Int.floor_eq_zero_iff]
    constructor
    · positivity
    · rw [div_lt_one (by norm_num)]; linarith
  simp [pymod360, hf]

lemma pymod360_eq_mul_fract (x : ℝ) : pymod360 x = 360 * Int.fract (x / 360) := by
  unfold pymod360 Int.fract
  field_simp

lemma pymod360_nonneg (x : ℝ) : 0 ≤ pymod360 x := by
  have h := Int.fract_nonneg (x / 360)
  rw [pymod360_eq_mul_fract]; linarith

lemma pymod360_lt (x : ℝ) : pymod360 x < 360 := by
  have h := Int.fract_lt_one (x / 360)
  rw [pymod360_eq_mul_fract]; linarith

lemma pymod360_idem (x : ℝ) : pymod360 (pymod360 x) = pymod360 x :=
  pymod360_eq_self (pymod360_nonneg x) (pymod360_lt x)

lemma upper_NE : upper "NE" = "NE" := by decide

lemma upper_SE : upper "SE" = "SE" := by decide

lemma upper_SW : upper "SW" = "SW" := by decide

lemma upper_NW : upper "NW" = "NW" := by decide

/-! ### Branch evaluation lemmas for the conversion functions -/

lemma azimuth_to_bearing_NE {a : ℝ} (h0 : 0 ≤ a) (h1 : a < 90) :
    azimuth_to_bearing a = ("NE", a) := by
  simp only [azimuth_to_bearing, pymod360_eq_self h0 (by linarith)]
  rw [if_pos ⟨h0, h1⟩]

lemma azimuth_to_bearing_SE {a : ℝ} (h0 : 90 ≤ a) (h1 : a < 180) :
    azimuth_to_bearing a = ("SE", 180 - a) := by
  simp only [azimuth_to_bearing, pymod360_eq_self (by linarith) (by linarith)]
  rw [if_neg (by rintro ⟨-, h⟩; linarith), if_pos ⟨h0, h1⟩]

lemma azimuth_to_bearing_SW {a : ℝ} (h0 : 180 ≤ a) (h1 : a < 270) :
    azimuth_to_bearing a = ("SW", a - 180) := by
  simp only [azimuth_to_bearing, pymod360_eq_self (by linarith) (by linarith)]
  rw [if_neg (by rintro ⟨-, h⟩; linarith), if_neg (by rintro ⟨-, h⟩; linarith),
    if_pos ⟨h0, h1⟩]

lemma azimuth_to_bearing_NW {a : ℝ} (h0 : 270 ≤ a) (h1 : a < 360) :
    azimuth_to_bearing a = ("NW", 360 - a) := by
  simp only [azimuth_to_bearing, pymod360_eq_self (by linarith) (by linarith)]
  rw [if_neg (by rintro ⟨-, h⟩; linarith), if_neg (by rintro ⟨-, h⟩; linarith),
    if_neg (by rintro ⟨-, h⟩; linarith), if_pos ⟨h0, h1⟩]

lemma bearing_to_azimuth_NE {b : ℝ} (h0 : 0 ≤ b) (h1 : b ≤ 90) :
    bearing_to_azimuth "NE" b = .ok (pymod360 b) := by
  simp only [bearing_to_azimuth, upper_NE]
  rw [if_neg (by rintro (h | h) <;> linarith), if_pos trivial]

lemma bearing_to_azimuth_SE {b : ℝ} (h0 : 0 ≤ b) (h1 : b ≤ 90) :
    bearing_to_azimuth "SE" b = .ok (pymod360 (180 - b)) := by
  simp only [bearing_to_azimuth, upper_SE]
  rw [if_neg (by rintro (h | h) <;> linarith), if_neg (by decide), if_pos trivial]

lemma bearing_to_azimuth_SW {b : ℝ} (h0 : 0 ≤ b) (h1 : b ≤ 90) :
    bearing_to_azimuth "SW" b = .ok (pymod360 (180 + b)) := by
  simp only [bearing_to_azimuth, upper_SW]
  rw [if_neg (by rintro (h | h) <;> linarith), if_neg (by decide), if_neg (by decide),
    if_pos trivial]

lemma bearing_to_azimuth_NW {b : ℝ} (h0 : 0 ≤ b) (h1 : b ≤ 90) :
    bearing_to_azimuth "NW" b = .ok (pymod360 (360 - b)) := by
  simp only [bearing_to_azimuth, upper_NW]
  rw [if_neg (by rintro (h | h) <;> linarith), if_neg (by decide), if_neg (by decide),
    if_neg (by decide), if_pos trivial]

/-! ### Claim C5 -/

/-- Claim C5: for every azimuth `a ∈ [0, 360)`, feeding the quadrant and
bearing produced by `azimuth_to_bearing a` back through
`bearing_to_azimuth` yields `a` again.  In this exact-arithmetic model
the round trip is exact, which in particular implies the claim's
"mod 360, within floating tolerance" reading. -/
theorem C5_azimuth_roundtrip (a : ℝ) (h0 : 0 ≤ a) (h1 : a < 360) :
    bearing_to_azimuth (azimuth_to_bearing a).1 (azimuth_to_bearing a).2 = .ok a := by
  rcases lt_or_le a 90 with h90 | h90
  · rw [azimuth_to_bearing_NE h0 h90]
    dsimp only
    rw [bearing_to_azimuth_NE h0 (by linarith)]
    rw [pymod360_eq_self h0 (by linarith)]
  · rcases lt_or_le a 180 with h180 | h180
    · rw [azimuth_to_bearing_SE h90 h180]
      dsimp only
      rw [bearing_to_azimuth_SE (by linarith) (by linarith)]
      rw [show (180 : ℝ) - (180 - a) = a by ring, pymod360_eq_self h0 h1]
    · rcases lt_or_le a 270 with h270 | h270
      · rw [azimuth_to_bearing_SW h180 h270]
        dsimp only
        rw [bearing_to_azimuth_SW (by linarith) (by linarith)]
        rw [show (180 : ℝ) + (a - 180) = a by ring, pymod360_eq_self h0 h1]
      · rw [azimuth_to_bearing_NW h270 h1]
        dsimp only
        rw [bearing_to_azimuth_NW (by linarith) (by linarith)]
        rw [show (360 : ℝ) - (360 - a) = a by ring, pymod360_eq_self h0 h1]

/-- Witness for C5 at the spec's own example azimuth 210. -/
theorem C5_azimuth_roundtrip_witness :
    (0 : ℝ) ≤ 210 ∧ (210 : ℝ) < 360 ∧
      bearing_to_azimuth (azimuth_to_bearing 210).1 (azimuth_to_bearing 210).2 =
        .ok 210 :=
  ⟨by norm_num, by norm_num, C5_azimuth_roundtrip 210 (by norm_num) (by norm_num)⟩

/-! ### Claim C4 -/

/-- Claim C4 as stated is false at the quadrant-boundary bearings: the
pair (NE, 90) maps to azimuth 90, which `azimuth_to_bearing` reports as
(SE, 90), not (NE, 90). -/
theorem C4_roundtrip_counterexample :
    bearing_to_azimuth "NE" 90 = .ok 90 ∧ azimuth_to_bearing 90 ≠ ("NE", 90) := by
  constructor
  · rw [bearing_to_azimuth_NE (by norm_num) le_rfl,
      pymod360_eq_self (by norm_num) (by norm_num)]
  · rw [azimuth_to_bearing_SE le_rfl (by norm_num)]
    intro h
    have := congrArg Prod.fst h
    simp at this

/-- Claim C4, amended: the (quadrant, bearing) round trip through
`bearing_to_azimuth` and `azimuth_to_bearing` reproduces the pair
exactly, provided the bearing avoids the quadrant edge that the azimuth
partition assigns to the neighbouring quadrant: bearing 90 is excluded
for NE and SW, and bearing 0 is excluded for SE and NW. -/
theorem C4_roundtrip_amended (q : String) (b : ℝ)
    (h : ((q = "NE" ∨ q = "SW") ∧ 0 ≤ b ∧ b < 90) ∨
      ((q = "SE" ∨ q = "NW") ∧ 0 < b ∧ b ≤ 90)) :
    ∃ a, bearing_to_azimuth q b = .ok a ∧ azimuth_to_bearing a = (q, b) := by
  rcases h with ⟨hq | hq, hb0, hb1⟩ | ⟨hq | hq, hb0, hb1⟩ <;> subst hq
  · refine ⟨b, ?_, ?_⟩
    · rw [bearing_to_azimuth_NE hb0 (by linarith), pymod360_eq_self hb0 (by linarith)]
    · exact azimuth_to_bearing_NE hb0 hb1
  · refine ⟨180 + b, ?_, ?_⟩
    · rw [bearing_to_azimuth_SW hb0 (by linarith),
        pymod360_eq_self (by linarith) (by linarith)]
    · rw [azimuth_to_bearing_SW (by linarith) (by linarith)]
      norm_num
  · refine ⟨180 - b, ?_, ?_⟩
    · rw [bearing_to_azimuth_SE (by linarith) hb1,
        pymod360_eq_self (by linarith) (by linarith)]
    · rw [azimuth_to_bearing_SE (by linarith) (by linarith)]
      norm_num
  · refine ⟨360 - b, ?_, ?_⟩
    · rw [bearing_to_azimuth_NW (by linarith) hb1,
        pymod360_eq_self (by linarith) (by linarith)]
    · rw [azimuth_to_bearing_NW (by linarith) (by linarith)]
      norm_num

/-- Witness for the amended C4 at the spec's own example (SW, 30). -/
theorem C4_roundtrip_amended_witness :
    ∃ a, bearing_to_azimuth "SW" 30 = .ok a ∧ azimuth_to_bearing a = ("SW", 30) :=
  C4_roundtrip_amended "SW" 30 (by norm_num)

/-! ### Line segments (src/backend/domain/vectors.py, lines 426-537)

The free-form attribute dictionaries are carried verbatim. -/

abbrev AttrMap := List (String × String)

structure LineSeg where
  id : String
  start : ℝ × ℝ
  endp : ℝ × ℝ
  azimuth : ℝ
  length : ℝ
  layer : String
  attributes : AttrMap

/-- `LineSegment.__init__`: the `bearing` argument is stored as the
azimuth, normalized by `% 360` (vectors.py lines 429-434). -/
noncomputable def mkLineSegment (id : String) (start endp : ℝ × ℝ) (bearing length : ℝ)
    (layer : String) (attributes : AttrMap) : LineSeg :=
  { id := id, start := start, endp := endp, azimuth := pymod360 bearing,
    length := length, layer := layer, attributes := attributes }

/-- The `azimuth` property setter (vectors.py lines 441-444). -/
noncomputable def LineSeg.setAzimuth (s : LineSeg) (v : ℝ) : LineSeg :=
  { s with azimuth := pymod360 v }

/-- The `bearing` property setter (vectors.py lines 451-454): it writes
the same private azimuth slot. -/
noncomputable def LineSeg.setBearing (s : LineSeg) (v : ℝ) : LineSeg :=
  { s with azimuth := pymod360 v }

/-- The `bearing` property getter (vectors.py lines 446-449): a view of
the stored azimuth. -/
def LineSeg.bearing (s : LineSeg) : ℝ := s.azimuth

/-- `LineSegment.recalculate_by_bearing_and_distance` (vectors.py lines
456-537).  The `math.isfinite` guards of the source are vacuous over ℝ
and therefore do not appear. -/
noncomputable def LineSeg.recalculate_by_bearing_and_distance (s : LineSeg)
    (quadrant : String) (bearing distance : ℝ) (blocked_point : String) :
    Except String LineSeg :=
  if bearing < 0 ∨ bearing > 90 then
    .error "Bearing must be in range 0-90 degrees"
  else if distance ≤ 0 then
    .error "Distance must be greater than 0"
  else if blocked_point ≠ "start_pt" ∧ blocked_point ≠ "end_pt" then
    .error "blocked_point must be start_pt or end_pt"
  else
    match bearing_to_azimuth quadrant bearing with
    | .error e => .error e
    | .ok azimuth =>
      let azimuth_rad := radians azimuth
      let dx := distance * Real.sin azimuth_rad
      let dy := distance * Real.cos azimuth_rad
      let s' :=
        if blocked_point = "start_pt" then
          { s with endp := (s.start.1 + dx, s.start.2 + dy) }
        else
          { s with start := (s.endp.1 - dx, s.endp.2 - dy) }
      let dx_new := s'.endp.1 - s'.start.1
      let dy_new := s'.endp.2 - s'.start.2
      let length := Real.sqrt (dx_new ^ 2 + dy_new ^ 2)
      let angle_deg := degrees (atan2 dy_new dx_new)
      .ok { s' with length := length, azimuth := pymod360 (90 - angle_deg) }

/-- What the source computes on the `blocked_point = "start_pt"` path,
written out: this is also literally the displacement/length/azimuth
recipe that the spec states for the recalculation. -/
noncomputable def recalcFromStart (s : LineSeg) (d az : ℝ) : LineSeg :=
  let e : ℝ × ℝ := (s.start.1 + d * Real.sin (radians az),
    s.start.2 + d * Real.cos (radians az))
  { s with
    endp := e
    length := Real.sqrt ((e.1 - s.start.1) ^ 2 + (e.2 - s.start.2) ^ 2)
    azimuth := pymod360 (90 - degrees (atan2 (e.2 - s.start.2) (e.1 - s.start.1))) }

lemma recalculate_ok (s : LineSeg) {q : String} {b : ℝ} (d : ℝ) {az : ℝ}
    (hb0 : 0 ≤ b) (hb1 : b ≤ 90) (hd : 0 < d)
    (haz : bearing_to_azimuth q b = .ok az) :
    s.recalculate_by_bearing_and_distance q b d "start_pt" = .ok (recalcFromStart s d az) := by
  unfold LineSeg.recalculate_by_bearing_and_distance
  rw [if_neg (by rintro (h | h) <;> linarith), if_neg (by linarith),
    if_neg (by rintro ⟨h, -⟩; exact h rfl), haz]
  dsimp only
  rw [if_pos rfl]
  rfl

/-! ### Trigonometric evaluation lemmas -/

lemma atan2_pos_x (y x : ℝ) (hx : 0 < x) : atan2 y x = Real.arctan (y / x) := by
  unfold atan2; rw [if_pos hx]

lemma atan2_zero_pos (y : ℝ) (hy : 0 < y) : atan2 y 0 = Real.pi / 2 := by
  unfold atan2
  rw [if_neg (lt_irrefl 0), if_neg (lt_irrefl 0), if_pos hy]

lemma degrees_pi_div_two : degrees (Real.pi / 2) = 90 := by
  unfold degrees
  have h := Real.pi_ne_zero
  field_simp
  ring

lemma degrees_neg_pi_div_four : degrees (-(Real.pi / 4)) = -45 := by
  unfold degrees
  have h := Real.pi_ne_zero
  field_simp
  ring

lemma radians_135 : radians 135 = Real.pi - Real.pi / 4 := by
  unfold radians; ring

lemma sin_radians_135 : Real.sin (radians 135) = Real.sqrt 2 / 2 := by
  rw [radians_135, Real.sin_pi_sub, Real.sin_pi_div_four]

lemma cos_radians_135 : Real.cos (radians 135) = -(Real.sqrt 2 / 2) := by
  rw [radians_135, Real.cos_pi_sub, Real.cos_pi_div_four]

lemma atan2_neg_self {c : ℝ} (hc : 0 < c) : atan2 (-c) c = -(Real.pi / 4) := by
  rw [atan2_pos_x _ _ hc, neg_div, div_self (ne_of_gt hc), Real.arctan_neg, Real.arctan_one]

lemma sqrt_two_gt : (1.414213 : ℝ) < Real.sqrt 2 := by
  have h : Real.sqrt 2 ^ 2 = 2 := Real.sq_sqrt (by norm_num)
  nlinarith [Real.sqrt_nonneg 2]

lemma sqrt_two_lt : Real.sqrt 2 < 1.414214 := by
  have h : Real.sqrt 2 ^ 2 = 2 := Real.sq_sqrt (by norm_num)
  nlinarith [Real.sqrt_nonneg 2]

lemma pymod360_135 : pymod360 135 = 135 :=
  pymod360_eq_self (by norm_num) (by norm_num)

lemma bearing_SE_45 : bearing_to_azimuth "SE" 45 = .ok 135 := by
  rw [bearing_to_azimuth_SE (by norm_num) (by norm_num),
    show (180 : ℝ) - 45 = 135 by norm_num, pymod360_135]

/-! ### Claim C9 -/

/-- Claim C9: a line segment's stored azimuth is always normalized to
[0, 360): the constructor and both setters store the input reduced
mod 360, a successful recalculation stores a value in [0, 360) that the
normalization fixes, the bearing setter is the azimuth setter, and the
bearing getter is a view of the stored azimuth (no separate bearing is
stored). -/
theorem C9_azimuth_normalized :
    (∀ i st en b len ly a, (mkLineSegment i st en b len ly a).azimuth = pymod360 b ∧
      0 ≤ (mkLineSegment i st en b len ly a).azimuth ∧
      (mkLineSegment i st en b len ly a).azimuth < 360) ∧
    (∀ (s : LineSeg) (v : ℝ), (s.setAzimuth v).azimuth = pymod360 v ∧
      0 ≤ (s.setAzimuth v).azimuth ∧ (s.setAzimuth v).azimuth < 360) ∧
    (∀ (s : LineSeg) (v : ℝ), s.setBearing v = s.setAzimuth v) ∧
    (∀ s : LineSeg, s.bearing = s.azimuth) ∧
    (∀ (s : LineSeg) (q : String) (b d : ℝ) (bp : String) (s' : LineSeg),
      s.recalculate_by_bearing_and_distance q b d bp = .ok s' →
      s'.azimuth = pymod360 s'.azimuth ∧ 0 ≤ s'.azimuth ∧ s'.azimuth < 360) := by
  refine ⟨?_, ?_, ?_, ?_, ?_⟩
  · intro i st en b len ly a
    exact ⟨rfl, pymod360_nonneg b, pymod360_lt b⟩
  · intro s v
    exact ⟨rfl, pymod360_nonneg v, pymod360_lt v⟩
  · intro s v
    rfl
  · intro s
    rfl
  · intro s q b d bp s' h
    unfold LineSeg.recalculate_by_bearing_and_distance at h
    rcases hbz : bearing_to_azimuth q b with e | az <;> rw [hbz] at h <;>
      split_ifs at h <;>
        (injection h with h2; subst h2;
          exact ⟨(pymod360_idem _).symm, pymod360_nonneg _, pymod360_lt _⟩)

/-- Witness for C9: the constructor clause instantiated at bearing 400. -/
theorem C9_azimuth_normalized_witness :
    (mkLineSegment "s" (0, 0) (0, 1) 400 1 "" []).azimuth = pymod360 400 ∧
      0 ≤ (mkLineSegment "s" (0, 0) (0, 1) 400 1 "" []).azimuth ∧
      (mkLineSegment "s" (0, 0) (0, 1) 400 1 "" []).azimuth < 360 :=
  C9_azimuth_normalized.1 "s" (0, 0) (0, 1) 400 1 "" []

/-! ### Claim C6 -/

/-- The example segment of the claim: a line from (0,0) to (0,10). -/
noncomputable def c6Segment : LineSeg := mkLineSegment "seg-c6" (0, 0) (0, 10) 0 10 "" []

lemma recalcFromStart_start (s : LineSeg) (d az : ℝ) :
    (recalcFromStart s d az).start = s.start := rfl

lemma recalcFromStart_endp (s : LineSeg) (d az : ℝ) :
    (recalcFromStart s d az).endp =
      (s.start.1 + d * Real.sin (radians az), s.start.2 + d * Real.cos (radians az)) := rfl

lemma recalcFromStart_azimuth (s : LineSeg) (d az : ℝ) :
    (recalcFromStart s d az).azimuth =
      pymod360 (90 - degrees (atan2
        (s.start.2 + d * Real.cos (radians az) - s.start.2)
        (s.start.1 + d * Real.sin (radians az) - s.start.1))) := rfl

lemma recalcFromStart_length (s : LineSeg) (d az : ℝ) :
    (recalcFromStart s d az).length =
      Real.sqrt ((s.start.1 + d * Real.sin (radians az) - s.start.1) ^ 2 +
        (s.start.2 + d * Real.cos (radians az) - s.start.2) ^ 2) := rfl

lemma c6Segment_start_fst : c6Segment.start.1 = 0 := rfl

lemma c6Segment_start_snd : c6Segment.start.2 = 0 := rfl

lemma c6_endp : (recalcFromStart c6Segment 10 135).endp =
    (5 * Real.sqrt 2, -(5 * Real.sqrt 2)) := by
  rw [recalcFromStart_endp, c6Segment_start_fst, c6Segment_start_snd,
    sin_radians_135, cos_radians_135, Prod.mk.injEq]
  constructor <;> ring

lemma c6_azimuth : (recalcFromStart c6Segment 10 135).azimuth = 135 := by
  have hpos : (0 : ℝ) < 5 * Real.sqrt 2 := by positivity
  rw [recalcFromStart_azimuth, c6Segment_start_fst, c6Segment_start_snd,
    sin_radians_135, cos_radians_135,
    show (0 : ℝ) + 10 * (Real.sqrt 2 / 2) - 0 = 5 * Real.sqrt 2 by ring,
    show (0 : ℝ) + 10 * -(Real.sqrt 2 / 2) - 0 = -(5 * Real.sqrt 2) by ring,
    atan2_neg_self hpos, degrees_neg_pi_div_four,
    show (90 : ℝ) - -45 = 135 by norm_num, pymod360_135]

lemma c6_length : (recalcFromStart c6Segment 10 135).length = 10 := by
  have h2 : Real.sqrt 2 ^ 2 = 2 := Real.sq_sqrt (by norm_num)
  rw [recalcFromStart_length, c6Segment_start_fst, c6Segment_start_snd,
    sin_radians_135, cos_radians_135,
    show (0 : ℝ) + 10 * (Real.sqrt 2 / 2) - 0 = 5 * Real.sqrt 2 by ring,
    show (0 : ℝ) + 10 * -(Real.sqrt 2 / 2) - 0 = -(5 * Real.sqrt 2) by ring]
  have hsum : (5 * Real.sqrt 2) ^ 2 + (-(5 * Real.sqrt 2)) ^ 2 = 100 := by
    rw [neg_sq, mul_pow, h2]; norm_num
  rw [hsum, show (100 : ℝ) = 10 ^ 2 by norm_num,
    Real.sqrt_sq (by norm_num : (0 : ℝ) ≤ 10)]

/-- Claim C6: recalculating a line segment with the start point fixed
keeps the start, moves the end to start + (d·sin az, d·cos az) for
az = bearing_to_azimuth(quadrant, bearing), and recomputes length as the
Euclidean endpoint distance and azimuth as (90 − atan2-degrees) mod 360
(these formulas are the fields of recalcFromStart); in particular the
segment (0,0)-(0,10) recalculated with quadrant SE, bearing 45,
distance 10, fixed start, ends at (5√2, −5√2) ≈ (7.0711, −7.0711) with
azimuth 135 and length 10. -/
theorem C6_recalculate_start_fixed (s : LineSeg) (q : String) (b d az : ℝ)
    (hb0 : 0 ≤ b) (hb1 : b ≤ 90) (hd : 0 < d)
    (haz : bearing_to_azimuth q b = .ok az) :
    (s.recalculate_by_bearing_and_distance q b d "start_pt" =
        .ok (recalcFromStart s d az) ∧
      (recalcFromStart s d az).start = s.start ∧
      (recalcFromStart s d az).endp =
        (s.start.1 + d * Real.sin (radians az), s.start.2 + d * Real.cos (radians az))) ∧
    ∃ t, c6Segment.recalculate_by_bearing_and_distance "SE" 45 10 "start_pt" = .ok t ∧
      t.start = (0, 0) ∧ t.endp = (5 * Real.sqrt 2, -(5 * Real.sqrt 2)) ∧
      |t.endp.1 - 7.0711| < 1 / 1000 ∧ |t.endp.2 + 7.0711| < 1 / 1000 ∧
      t.azimuth = 135 ∧ t.length = 10 := by
  constructor
  · exact ⟨recalculate_ok s d hb0 hb1 hd haz, rfl, rfl⟩
  · refine ⟨recalcFromStart c6Segment 10 135,
      recalculate_ok c6Segment 10 (by norm_num) (by norm_num) (by norm_num) bearing_SE_45,
      rfl, c6_endp, ?_, ?_, c6_azimuth, c6_length⟩
    · rw [c6_endp]
      rw [abs_lt]
      constructor <;> nlinarith [sqrt_two_gt, sqrt_two_lt]
    · rw [c6_endp]
      rw [abs_lt]
      constructor <;> nlinarith [sqrt_two_gt, sqrt_two_lt]

/-- Witness for C6: the concrete example part, extracted by applying the
theorem at the segment (0,0)-(0,10) with (SE, 45, 10). -/
theorem C6_recalculate_start_fixed_witness :
    ∃ t, c6Segment.recalculate_by_bearing_and_distance "SE" 45 10 "start_pt" = .ok t ∧
      t.start = (0, 0) ∧ t.endp = (5 * Real.sqrt 2, -(5 * Real.sqrt 2)) ∧
      |t.endp.1 - 7.0711| < 1 / 1000 ∧ |t.endp.2 + 7.0711| < 1 / 1000 ∧
      t.azimuth = 135 ∧ t.length = 10 :=
  (C6_recalculate_start_fixed c6Segment "SE" 45 10 135 (by norm_num) (by norm_num)
    (by norm_num) bearing_SE_45).2

/-! ### The rest of the domain model and its storage-JSON codec
(src/backend/domain/vectors.py)

The storage documents are modelled by typed mirror records (`...J`).
A JSON key that the encoder always writes and the decoder always reads
appears as a plain field; keys the encoder omits (geometry ids, parcel
feature types and styles, layer titles) do not appear in the mirror and
are reinstated by the decoder with the source's defaults.  The `points`
and `segments` keys, which the decoder only treats specially when
present and non-empty, are modelled as plain lists with absence
identified with emptiness (the decode result is the same).  Point
records decode and encode field-for-field, so a single structure serves
for both forms. -/

structure Point where
  id : String
  x : ℝ
  y : ℝ
  layer : String
  attributes : AttrMap

inductive Rot
  | cw
  | ccw
deriving DecidableEq

structure ArcSeg where
  id : String
  start : ℝ × ℝ
  endp : ℝ × ℝ
  center : ℝ × ℝ
  radius : ℝ
  rot : Rot
  delta : Option ℝ
  length : ℝ
  layer : String
  attributes : AttrMap

inductive Seg
  | line (s : LineSeg)
  | arc (a : ArcSeg)

def Seg.id : Seg → String
  | .line s => s.id
  | .arc a => a.id

structure LineSegJ where
  id : String
  start : ℝ × ℝ
  endp : ℝ × ℝ
  bearing : ℝ
  length : ℝ
  layer : String
  attributes : AttrMap

structure ArcSegJ where
  id : String
  start : ℝ × ℝ
  endp : ℝ × ℝ
  center : ℝ × ℝ
  radius : ℝ
  rot : Rot
  delta : Option ℝ
  length : ℝ
  layer : String
  attributes : AttrMap

inductive SegJ
  | line (j : LineSegJ)
  | arc (j : ArcSegJ)

def SegJ.id : SegJ → String
  | .line j => j.id
  | .arc j => j.id

/-- Fresh identifiers standing for `uuid.uuid4()` at the four places the
decoders generate one; no claim depends on their values. -/
def genGeometryId : String := "uuid-geometry"

def genLayerId : String := "uuid-layer"

def genParcelId : String := "uuid-parcel"

def genSegmentId : String := "uuid-segment"

/-- `Segment.from_storage_json` (vectors.py lines 386-395) dispatching to
`LineSegment.from_storage_json` (550-561, whose constructor normalizes
the stored `bearing` value into the azimuth slot) and
`ArcSegment.from_storage_json` (645-661). -/
noncomputable def segFromStorage : SegJ → Seg
  | .line j => .line (mkLineSegment j.id j.start j.endp j.bearing j.length j.layer j.attributes)
  | .arc j => .arc
      { id := j.id
        start := j.start
        endp := j.endp
        center := j.center
        radius := j.radius
        rot := j.rot
        delta := j.delta
        length := j.length
        layer := j.layer
        attributes := j.attributes }

/-- `Segment.to_storage_json` (369-380) plus the line override (539-544),
which writes the azimuth under the legacy `bearing` key, and the arc
override (625-633). -/
def segToStorage : Seg → SegJ
  | .line l => .line
      { id := l.id
        start := l.start
        endp := l.endp
        bearing := l.azimuth
        length := l.length
        layer := l.layer
        attributes := l.attributes }
  | .arc a => .arc
      { id := a.id
        start := a.start
        endp := a.endp
        center := a.center
        radius := a.radius
        rot := a.rot
        delta := a.delta
        length := a.length
        layer := a.layer
        attributes := a.attributes }

structure Geometry where
  id : String
  type : String
  isClosed : Bool
  segments : List Seg
  attributes : AttrMap

structure GeometryJ where
  type : String
  isClosed : Bool
  segments : List SegJ
  attributes : AttrMap

/-- `Geometry.from_storage_json` (742-754); the storage form has no id
(the encoder omits it), so a fresh one is generated. -/
noncomputable def geometryFromStorage (g : GeometryJ) : Geometry :=
  { id := genGeometryId, type := g.type, isClosed := g.isClosed,
    segments := g.segments.map segFromStorage, attributes := g.attributes }

/-- `Geometry.to_storage_json` (724-731). -/
def geometryToStorage (g : Geometry) : GeometryJ :=
  { type := g.type, isClosed := g.isClosed,
    segments := g.segments.map segToStorage, attributes := g.attributes }

structure Parcel where
  id : String
  name : String
  feature_type : String
  number : Int
  area : ℝ
  geometry : Option Geometry
  style : AttrMap
  attributes : AttrMap

structure ParcelJ where
  id : String
  number : Int
  name : String
  area : ℝ
  geometry : Option GeometryJ
  attributes : AttrMap

/-- `Parcel.from_storage_json` (887-901); the storage form carries
neither feature type nor style, so the constructor defaults apply. -/
noncomputable def parcelFromStorage (p : ParcelJ) : Parcel :=
  { id := p.id, name := p.name, feature_type := "parcel", number := p.number,
    area := p.area, geometry := p.geometry.map geometryFromStorage, style := [],
    attributes := p.attributes }

/-- `Parcel.to_storage_json` (861-872). -/
def parcelToStorage (p : Parcel) : ParcelJ :=
  { id := p.id, number := p.number, name := p.name, area := p.area,
    geometry := p.geometry.map geometryToStorage, attributes := p.attributes }

structure Layer where
  id : String
  layer_type : String
  name : String
  title : String
  visible : Bool
  parcels : List Parcel
  attributes : AttrMap

structure LayerJ where
  geometryLayerId : String
  geometryLayerType : String
  name : String
  visible : Bool
  parcels : List ParcelJ
  attributes : AttrMap

/-- `GeometryLayer.from_storage_json` (1037-1050); the constructor sets
the title to the name when no title is given, and storage has none. -/
noncomputable def layerFromStorage (l : LayerJ) : Layer :=
  { id := l.geometryLayerId, layer_type := l.geometryLayerType, name := l.name,
    title := l.name, visible := l.visible, parcels := l.parcels.map parcelFromStorage,
    attributes := l.attributes }

/-- `GeometryLayer.to_storage_json` (1017-1026). -/
def layerToStorage (l : Layer) : LayerJ :=
  { geometryLayerId := l.id, geometryLayerType := l.layer_type, name := l.name,
    visible := l.visible, parcels := l.parcels.map parcelToStorage,
    attributes := l.attributes }

/-- The `history` dictionary {currentVersion, previousVersionFile}.  A
retained file name `version_<N>.json` is identified with its integer N
(the naming is injective in N). -/
structure History where
  currentVersion : Int
  previousVersionFile : Option Int
deriving DecidableEq

structure Site where
  id : String
  project_id : String
  name : String
  version : Int
  history : History
  geometry_layers : List Layer
  points : List Point
  session_id : Option Int
  metadata : AttrMap
  attributes : AttrMap

structure SiteJ where
  projectId : String
  siteId : String
  name : String
  version : Int
  history : History
  geometryLayers : List LayerJ
  metadata : AttrMap
  attributes : AttrMap
  sessionId : Option Int
  points : List Point
  segments : List SegJ

/-- The default layer/parcel/geometry objects the decoders create
(vectors.py lines 1316-1342), with generated ids. -/
def defaultLayerNew : Layer :=
  { id := genLayerId, layer_type := "Boundary", name := "Default Layer",
    title := "Default Layer", visible := true, parcels := [], attributes := [] }

def defaultParcelNew : Parcel :=
  { id := genParcelId, name := "Default Parcel", feature_type := "parcel",
    number := 0, area := 0, geometry := none, style := [], attributes := [] }

def defaultGeometryNew : Geometry :=
  { id := genGeometryId, type := "LineString", isClosed := false, segments := [],
    attributes := [] }

/-- Vectors.py lines 1344-1349: decode the top-level legacy segments and
append them to the geometry, skipping ids already present.  The set of
existing ids is computed once, before the loop, exactly as in the
source (so duplicates inside `segs` itself are all appended). -/
noncomputable def appendLegacySegments (g : Geometry) (segs : List SegJ) : Geometry :=
  let existing := g.segments.map Seg.id
  { g with segments :=
      g.segments ++ (segs.map segFromStorage).filter (fun s => decide (s.id ∉ existing)) }

/-- Vectors.py lines 1337-1342: reuse the parcel's geometry or create
the default one. -/
noncomputable def parcelWithLegacy (p : Parcel) (segs : List SegJ) : Parcel :=
  match p.geometry with
  | none => { p with geometry := some (appendLegacySegments defaultGeometryNew segs) }
  | some g => { p with geometry := some (appendLegacySegments g segs) }

/-- Vectors.py lines 1326-1335: reuse the layer's first parcel or create
the default one. -/
noncomputable def layerWithLegacy (l : Layer) (segs : List SegJ) : Layer :=
  match l.parcels with
  | [] => { l with parcels := [parcelWithLegacy defaultParcelNew segs] }
  | p :: rest => { l with parcels := parcelWithLegacy p segs :: rest }

/-- Vectors.py lines 1309-1323: find the first layer named
"Default Layer" and put the legacy segments there, else append a fresh
default layer.  (The source's second disjunct
`not site.geometry_layers and layer.layer_type == 'Boundary'` is always
false inside a loop over those very layers.) -/
noncomputable def attachLegacy (segs : List SegJ) : List Layer → List Layer
  | [] => [layerWithLegacy defaultLayerNew segs]
  | l :: rest =>
    if l.name = "Default Layer" then layerWithLegacy l segs :: rest
    else l :: attachLegacy segs rest

/-- `Site.from_storage_json` (vectors.py lines 1278-1351). -/
noncomputable def siteFromStorage (d : SiteJ) : Site :=
  let base : Site :=
    { id := d.siteId, project_id := d.projectId, name := d.name, version := d.version,
      history := d.history, geometry_layers := d.geometryLayers.map layerFromStorage,
      points := d.points, session_id := d.sessionId, metadata := d.metadata,
      attributes := d.attributes }
  if d.segments.isEmpty then base
  else { base with geometry_layers := attachLegacy d.segments base.geometry_layers }

/-- `Site.get_all_segments` (vectors.py lines 1214-1222): all segments
of all layers, in traversal order. -/
def Site.get_all_segments (s : Site) : List Seg :=
  (s.geometry_layers.map (fun l =>
    (l.parcels.map (fun p => (p.geometry.map Geometry.segments).getD [])).flatten)).flatten

/-- `Site.to_storage_json` (vectors.py lines 1234-1257): the top-level
`points`/`segments` keys are only written when a session id is present,
and the segments are extracted from the layers by the same traversal as
`get_all_segments`. -/
def siteToStorage (s : Site) : SiteJ :=
  { projectId := s.project_id, siteId := s.id, name := s.name, version := s.version,
    history := s.history, geometryLayers := s.geometry_layers.map layerToStorage,
    metadata := s.metadata, attributes := s.attributes, sessionId := s.session_id,
    points := if s.session_id.isSome then s.points else [],
    segments := if s.session_id.isSome then s.get_all_segments.map segToStorage else [] }

/-! ### Versioning engine (src/backend/services/geometry_service.py) -/

/-- The two exception classes `undo` can raise:
`GeometryError("No actions to undo")` and `GeometryNotFoundError` for a
missing retained file. -/
inductive GeomErr
  | noUndo
  | notFound
deriving DecidableEq

/-- The on-disk state of one session's `geom_tmp` directory:
`current.json` plus the retained `version_<N>.json` files.  The retained
files are a set of named files on disk; they are represented canonically
as an association list sorted by version number, which is the order the
cleanup uses. -/
structure Store where
  current : Option SiteJ
  versions : List (Int × SiteJ)

def emptyStore : Store := { current := none, versions := [] }

def lookupVersion (vs : List (Int × SiteJ)) (n : Int) : Option SiteJ :=
  (vs.find? (fun e => decide (e.1 = n))).map (fun e => e.2)

/-- Write a retained snapshot file: an existing file of the same name is
overwritten, and the sorted representation is maintained. -/
def insertSorted (n : Int) (d : SiteJ) : List (Int × SiteJ) → List (Int × SiteJ)
  | [] => [(n, d)]
  | e :: rest => if n ≤ e.1 then (n, d) :: e :: rest else e :: insertSorted n d rest

def writeVersion (vs : List (Int × SiteJ)) (n : Int) (d : SiteJ) : List (Int × SiteJ) :=
  insertSorted n d (vs.filter (fun e => decide (e.1 ≠ n)))

/-- `GeometryService._cleanup_old_versions` (lines 516-540): sort the
retained files by version number ascending — here they are already
sorted — and when more than `max_versions` remain delete the oldest
ones, keeping the newest `max_versions`. -/
def _cleanup_old_versions (vs : List (Int × SiteJ)) (max_versions : Nat) :
    List (Int × SiteJ) :=
  if vs.length > max_versions then vs.drop (vs.length - max_versions) else vs

/-- `GeometryService._create_empty_site` (lines 33-45). -/
def _create_empty_site (session_id : Int) : Site :=
  { id := toString session_id
    project_id := ""
    name := "Session " ++ toString session_id
    version := 0
    history := { currentVersion := 0, previousVersionFile := none }
    geometry_layers := []
    points := []
    session_id := some session_id
    metadata := []
    attributes := [] }

/-- `GeometryService._load_site_from_json` (lines 47-52): the session id
is written into the document before decoding. -/
noncomputable def _load_site_from_json (d : SiteJ) (session_id : Int) : Site :=
  siteFromStorage { d with sessionId := some session_id }

/-- `GeometryService.load_current_geometry` with `as_site=True`
(lines 109-148). -/
noncomputable def load_current_geometry (st : Store) (session_id : Int) : Site :=
  match st.current with
  | none => _create_empty_site session_id
  | some d => _load_site_from_json d session_id

/-- The version/history stamping that `save_geometry` performs on the
mutated site (lines 193-203). -/
noncomputable def stampSite (site : Site) (session_id v : Int) (prev : Option Int) : Site :=
  let site1 :=
    if site.session_id.isNone then { site with session_id := some session_id } else site
  { site1 with
    version := v
    history := { currentVersion := v, previousVersionFile := prev } }

/-- `GeometryService.save_geometry` on a `Site` argument (lines
150-227): read the pre-mutation current state, retain it as
`version_<N>.json` when its version N is positive, stamp version N+1 and
the history link into the mutated site, overwrite `current.json`, prune
the retained files to the newest 20, and return the stamped site. -/
noncomputable def save_geometry (st : Store) (session_id : Int) (site : Site) :
    Store × Site :=
  let current_site := load_current_geometry st session_id
  let current_version := current_site.version
  let retained :=
    if 0 < current_version then
      (writeVersion st.versions current_version (siteToStorage current_site),
        some current_version)
    else (st.versions, none)
  let site2 := stampSite site session_id (current_version + 1) retained.2
  ({ current := some (siteToStorage site2)
     versions := _cleanup_old_versions retained.1 20 }, site2)

/-- `GeometryService.undo` (lines 421-456).  The store component of the
result is the session directory after the call; it is unchanged on
either failure, since in the source both checks precede the only write. -/
noncomputable def undo (st : Store) (session_id : Int) : Store × Except GeomErr Site :=
  let current_site := load_current_geometry st session_id
  match current_site.history.previousVersionFile with
  | none => (st, .error .noUndo)
  | some n =>
    match lookupVersion st.versions n with
    | none => (st, .error .notFound)
    | some prevJ =>
      let previous_site := _load_site_from_json prevJ session_id
      let previous_site2 := { previous_site with version := current_site.version - 1 }
      ({ st with current := some (siteToStorage previous_site2) }, .ok previous_site2)

/-- N sequential commits on an initially empty session directory:
`f i` is the mutated site handed to the i-th commit. -/
noncomputable def commitN (session_id : Int) (f : Nat → Site) : Nat → Store
  | 0 => emptyStore
  | n + 1 => (save_geometry (commitN session_id f n) session_id (f n)).1

/-- The list [lo, lo+1, ..., lo+n-1]. -/
def intRange (lo : Int) : Nat → List Int
  | 0 => []
  | n + 1 => lo :: intRange (lo + 1) n

/-! ### Projection and unfolding lemmas for the engine -/

lemma siteFromStorage_version (d : SiteJ) : (siteFromStorage d).version = d.version := by
  unfold siteFromStorage
  by_cases h : d.segments.isEmpty <;> simp [h]

lemma siteFromStorage_history (d : SiteJ) : (siteFromStorage d).history = d.history := by
  unfold siteFromStorage
  by_cases h : d.segments.isEmpty <;> simp [h]

lemma load_site_version (d : SiteJ) (sid : Int) :
    (_load_site_from_json d sid).version = d.version := by
  unfold _load_site_from_json
  rw [siteFromStorage_version]

lemma load_site_history (d : SiteJ) (sid : Int) :
    (_load_site_from_json d sid).history = d.history := by
  unfold _load_site_from_json
  rw [siteFromStorage_history]

lemma stampSite_version (site : Site) (sid v : Int) (p : Option Int) :
    (stampSite site sid v p).version = v := rfl

lemma stampSite_history (site : Site) (sid v : Int) (p : Option Int) :
    (stampSite site sid v p).history =
      { currentVersion := v, previousVersionFile := p } := rfl

lemma siteToStorage_version (s : Site) : (siteToStorage s).version = s.version := rfl

lemma siteToStorage_history (s : Site) : (siteToStorage s).history = s.history := rfl

lemma load_current_none {st : Store} (h : st.current = none) (sid : Int) :
    load_current_geometry st sid = _create_empty_site sid := by
  unfold load_current_geometry
  rw [h]

lemma load_current_some {st : Store} {d : SiteJ} (h : st.current = some d) (sid : Int) :
    load_current_geometry st sid = _load_site_from_json d sid := by
  unfold load_current_geometry
  rw [h]

lemma save_geometry_pos (st : Store) (sid : Int) (site : Site)
    (h : 0 < (load_current_geometry st sid).version) :
    save_geometry st sid site =
      ({ current := some (siteToStorage (stampSite site sid
            ((load_current_geometry st sid).version + 1)
            (some (load_current_geometry st sid).version)))
         versions := _cleanup_old_versions
           (writeVersion st.versions (load_current_geometry st sid).version
             (siteToStorage (load_current_geometry st sid))) 20 },
        stampSite site sid ((load_current_geometry st sid).version + 1)
          (some (load_current_geometry st sid).version)) := by
  unfold save_geometry
  dsimp only
  rw [if_pos h]

lemma save_geometry_nonpos (st : Store) (sid : Int) (site : Site)
    (h : ¬ 0 < (load_current_geometry st sid).version) :
    save_geometry st sid site =
      ({ current := some (siteToStorage (stampSite site sid
            ((load_current_geometry st sid).version + 1) none))
         versions := _cleanup_old_versions st.versions 20 },
        stampSite site sid ((load_current_geometry st sid).version + 1) none) := by
  unfold save_geometry
  dsimp only
  rw [if_neg h]

/-! ### Arithmetic of the retained-file key lists -/

lemma intRange_length (lo : Int) (n : Nat) : (intRange lo n).length = n := by
  induction n generalizing lo with
  | zero => rfl
  | succ m ih => simp [intRange, ih]

lemma intRange_append_last (lo : Int) (n : Nat) :
    intRange lo (n + 1) = intRange lo n ++ [lo + n] := by
  induction n generalizing lo with
  | zero => simp [intRange]
  | succ m ih =>
    rw [show intRange lo (m + 1 + 1) = lo :: intRange (lo + 1) (m + 1) from rfl, ih]
    rw [show intRange lo (m + 1) = lo :: intRange (lo + 1) m from rfl]
    rw [List.cons_append]
    congr 2
    push_cast
    ring_nf

lemma intRange_snoc (lo : Int) (n : Nat) (x : Int) (hx : x = lo + n) :
    intRange lo n ++ [x] = intRange lo (n + 1) := by
  subst hx
  exact (intRange_append_last lo n).symm

lemma intRange_mem_lt {lo : Int} {n : Nat} {x : Int} (hx : x ∈ intRange lo n) :
    x < lo + n := by
  induction n generalizing lo with
  | zero => cases hx
  | succ m ih =>
    rw [show intRange lo (m + 1) = lo :: intRange (lo + 1) m from rfl] at hx
    rcases List.mem_cons.1 hx with rfl | hx
    · omega
    · have := ih hx
      omega

lemma filter_ne_eq_self (vs : List (Int × SiteJ)) (n : Int)
    (h : ∀ e ∈ vs, e.1 < n) :
    vs.filter (fun e => decide (e.1 ≠ n)) = vs :=
  List.filter_eq_self.2 fun e he => by
    simp only [decide_eq_true_eq]
    exact ne_of_lt (h e he)

lemma insertSorted_append (n : Int) (d : SiteJ) (vs : List (Int × SiteJ))
    (h : ∀ e ∈ vs, e.1 < n) :
    insertSorted n d vs = vs ++ [(n, d)] := by
  induction vs with
  | nil => rfl
  | cons e rest ih =>
    rw [show insertSorted n d (e :: rest) =
        if n ≤ e.1 then (n, d) :: e :: rest else e :: insertSorted n d rest from rfl]
    rw [if_neg (not_le.2 (h e (List.mem_cons_self e rest))),
      ih fun x hx => h x (List.mem_cons_of_mem e hx)]
    rfl

lemma writeVersion_append (vs : List (Int × SiteJ)) (n : Int) (d : SiteJ)
    (h : ∀ e ∈ vs, e.1 < n) :
    writeVersion vs n d = vs ++ [(n, d)] := by
  unfold writeVersion
  rw [filter_ne_eq_self vs n h, insertSorted_append n d vs h]

/-- The induction behind claim C1: after k commits on an initially
empty session directory the current document carries version k and the
retained files are exactly the min(k−1, 20) newest. -/
lemma commitN_current_keys (sid : Int) (f : Nat → Site) :
    ∀ N : Nat, 1 ≤ N → ∃ d : SiteJ,
      (commitN sid f N).current = some d ∧ d.version = (N : Int) ∧
      (commitN sid f N).versions.map Prod.fst =
        intRange ((N : Int) - (min (N - 1) 20 : Nat)) (min (N - 1) 20) := by
  intro N
  induction N with
  | zero => intro h; exact absurd h (by norm_num)
  | succ k ih =>
    intro _
    rcases Nat.eq_zero_or_pos k with rfl | hk
    · have hv0 : (load_current_geometry emptyStore sid).version = 0 := rfl
      have hsave := save_geometry_nonpos emptyStore sid (f 0) (by rw [hv0]; norm_num)
      rw [hv0, zero_add] at hsave
      have hc : commitN sid f 1 = (save_geometry emptyStore sid (f 0)).1 := rfl
      refine ⟨siteToStorage (stampSite (f 0) sid 1 none), ?_, ?_, ?_⟩
      · rw [hc, hsave]
      · rw [siteToStorage_version, stampSite_version]
        norm_num
      · rw [hc, hsave]
        simp [_cleanup_old_versions, emptyStore, intRange]
    · obtain ⟨d, hcur, hver, hkeys⟩ := ih hk
      set m := min (k - 1) 20 with hm
      have hload : load_current_geometry (commitN sid f k) sid = _load_site_from_json d sid :=
        load_current_some hcur sid
      have hv : (load_current_geometry (commitN sid f k) sid).version = (k : Int) := by
        rw [hload, load_site_version, hver]
      have hpos : 0 < (load_current_geometry (commitN sid f k) sid).version := by
        rw [hv]
        exact_mod_cast hk
      have hsave := save_geometry_pos (commitN sid f k) sid (f k) hpos
      rw [hv] at hsave
      have hc : commitN sid f (k + 1) = (save_geometry (commitN sid f k) sid (f k)).1 := rfl
      have hbound : ∀ e ∈ (commitN sid f k).versions, e.1 < (k : Int) := by
        intro e he
        have hmem : e.1 ∈ (commitN sid f k).versions.map Prod.fst :=
          List.mem_map_of_mem Prod.fst he
        rw [hkeys] at hmem
        have := intRange_mem_lt hmem
        omega
      rw [writeVersion_append (commitN sid f k).versions (k : Int)
        (siteToStorage (load_current_geometry (commitN sid f k) sid)) hbound] at hsave
      have hlen : (commitN sid f k).versions.length = m := by
        have := congrArg List.length hkeys
        simpa [intRange_length] using this
      refine ⟨siteToStorage (stampSite (f k) sid ((k : Int) + 1) (some (k : Int))),
        ?_, ?_, ?_⟩
      · rw [hc, hsave]
      · rw [siteToStorage_version, stampSite_version]
        omega
      · rw [hc, hsave]
        dsimp only
        rcases le_or_lt k 20 with hk20 | hk20
        · rw [show _cleanup_old_versions ((commitN sid f k).versions ++
              [((k : Int), siteToStorage (load_current_geometry (commitN sid f k) sid))]) 20 =
              (commitN sid f k).versions ++
                [((k : Int), siteToStorage (load_current_geometry (commitN sid f k) sid))] by
            unfold _cleanup_old_versions
            rw [if_neg (by rw [List.length_append, hlen]; simp; omega)]]
          rw [List.map_append, hkeys]
          dsimp only [List.map_cons, List.map_nil]
          rw [intRange_snoc ((k : Int) - m) m (k : Int) (by omega)]
          congr 1 <;> omega
        · have hml : m = 20 := by omega
          unfold _cleanup_old_versions
          rw [if_pos (by rw [List.length_append, hlen]; simp; omega)]
          rw [List.length_append, hlen, hml]
          norm_num
          rw [hkeys, intRange_snoc ((k : Int) - m) m (k : Int) (by omega), hml]
          rw [show intRange ((k : Int) - (20 : Nat)) (20 + 1) =
              ((k : Int) - (20 : Nat)) :: intRange ((k : Int) - (20 : Nat) + 1) 20 from rfl]
          rw [List.tail_cons]
          congr 1 <;> omega

/-! ### Claim C1 -/

/-- Claim C1: committing N ≥ 1 sequential mutations on an initially
empty session yields a current snapshot of version N, and exactly
min(N−1, 20) retained version files remain on disk — precisely those
with the highest version numbers, N−min(N−1,20) through N−1. -/
theorem C1_commit_retention (N : Nat) (hN : 1 ≤ N) (sid : Int) (f : Nat → Site) :
    ∃ d : SiteJ, (commitN sid f N).current = some d ∧ d.version = (N : Int) ∧
      (commitN sid f N).versions.length = min (N - 1) 20 ∧
      (commitN sid f N).versions.map Prod.fst =
        intRange ((N : Int) - (min (N - 1) 20 : Nat)) (min (N - 1) 20) := by
  obtain ⟨d, h1, h2, h3⟩ := commitN_current_keys sid f N hN
  refine ⟨d, h1, h2, ?_, h3⟩
  have hl := congrArg List.length h3
  simpa [intRange_length] using hl

/-- Witness for C1: a single commit of an empty mutation. -/
theorem C1_commit_retention_witness :
    ∃ d : SiteJ, (commitN 0 (fun _ => _create_empty_site 0) 1).current = some d ∧
      d.version = (1 : Int) ∧
      (commitN 0 (fun _ => _create_empty_site 0) 1).versions.length = min 0 20 ∧
      (commitN 0 (fun _ => _create_empty_site 0) 1).versions.map Prod.fst =
        intRange ((1 : Int) - (min 0 20 : Nat)) (min 0 20) :=
  C1_commit_retention 1 (by norm_num) 0 (fun _ => _create_empty_site 0)

/-! ### Unfolding lemmas for undo -/

lemma undo_eq_noUndo {st : Store} {sid : Int}
    (h : (load_current_geometry st sid).history.previousVersionFile = none) :
    undo st sid = (st, .error .noUndo) := by
  unfold undo
  dsimp only
  rw [h]

lemma undo_eq_notFound {st : Store} {sid : Int} {n : Int}
    (h : (load_current_geometry st sid).history.previousVersionFile = some n)
    (h2 : lookupVersion st.versions n = none) :
    undo st sid = (st, .error .notFound) := by
  unfold undo
  dsimp only
  rw [h]
  dsimp only
  rw [h2]

lemma undo_eq_ok {st : Store} {sid : Int} {n : Int} {prevJ : SiteJ}
    (h : (load_current_geometry st sid).history.previousVersionFile = some n)
    (h2 : lookupVersion st.versions n = some prevJ) :
    undo st sid =
      ({ st with current := some (siteToStorage
          { _load_site_from_json prevJ sid with
            version := (load_current_geometry st sid).version - 1 }) },
        .ok { _load_site_from_json prevJ sid with
          version := (load_current_geometry st sid).version - 1 }) := by
  unfold undo
  dsimp only
  rw [h]
  dsimp only
  rw [h2]

/-! ### Claim C2 -/

/-- Claim C2 as stated is false.  After exactly one commit on an
initially empty session the recorded previous-version link is null
(version 0 is never written to a retained file), so `undo` raises the
"No actions to undo" error instead of succeeding and restoring the
version-0 state.  Shown at a concrete one-commit history. -/
theorem C2_undo_after_one_commit_counterexample :
    (undo (commitN 7 (fun _ => _create_empty_site 7) 1) 7).2 = .error .noUndo := by
  have hv0 : (load_current_geometry emptyStore 7).version = 0 := rfl
  have hsave := save_geometry_nonpos emptyStore 7 (_create_empty_site 7)
    (by rw [hv0]; norm_num)
  have hc : commitN 7 (fun _ => _create_empty_site 7) 1 =
      (save_geometry emptyStore 7 (_create_empty_site 7)).1 := rfl
  have hprev : (load_current_geometry (commitN 7 (fun _ => _create_empty_site 7) 1)
      7).history.previousVersionFile = none := by
    rw [hc, hsave]
    dsimp only
    rw [load_current_some rfl 7, load_site_history, siteToStorage_history,
      stampSite_history]
  rw [undo_eq_noUndo hprev]

/-- Claim C2, amended: after exactly one commit (of any mutated site) on
an initially empty session, `undo` fails with the NoOp error and leaves
the session directory unchanged, because the single commit recorded a
null previous-version link — the pre-mutation version-0 state is not
retained and cannot be restored. -/
theorem C2_undo_after_one_commit_amended (sid : Int) (site : Site) :
    (undo (commitN sid (fun _ => site) 1) sid).2 = .error .noUndo ∧
    (undo (commitN sid (fun _ => site) 1) sid).1 =
      commitN sid (fun _ => site) 1 := by
  have hv0 : (load_current_geometry emptyStore sid).version = 0 := rfl
  have hsave := save_geometry_nonpos emptyStore sid site (by rw [hv0]; norm_num)
  have hc : commitN sid (fun _ => site) 1 = (save_geometry emptyStore sid site).1 := rfl
  have hprev : (load_current_geometry (commitN sid (fun _ => site) 1)
      sid).history.previousVersionFile = none := by
    rw [hc, hsave]
    dsimp only
    rw [load_current_some rfl sid, load_site_history, siteToStorage_history,
      stampSite_history]
  rw [undo_eq_noUndo hprev]
  exact ⟨rfl, rfl⟩

/-! ### Claim C7 -/

/-- Claim C7, amended: `undo` fails exactly when the chain has no prior
snapshot — a null previous-version link, or a link to a pruned retained
file — and in either failure the session directory is unchanged; but the
two failures raise different errors: the null link raises the NoOp
"No actions to undo" error while the pruned link raises the NotFound
error, not NoOp as the claim states. -/
theorem C7_undo_failure_amended (st : Store) (sid : Int) :
    ((undo st sid).2 = .error .noUndo ↔
      (load_current_geometry st sid).history.previousVersionFile = none) ∧
    ((undo st sid).2 = .error .notFound ↔
      ∃ n, (load_current_geometry st sid).history.previousVersionFile = some n ∧
        lookupVersion st.versions n = none) ∧
    (∀ e, (undo st sid).2 = .error e → (undo st sid).1 = st) := by
  rcases hp : (load_current_geometry st sid).history.previousVersionFile with _ | n
  · rw [undo_eq_noUndo hp]
    exact ⟨by simp, by simp [hp], fun e _ => rfl⟩
  · rcases hl : lookupVersion st.versions n with _ | prevJ
    · rw [undo_eq_notFound hp hl]
      refine ⟨by simp, ?_, fun e _ => rfl⟩
      constructor
      · intro _
        exact ⟨n, rfl, hl⟩
      · intro _
        rfl
    · rw [undo_eq_ok hp hl]
      refine ⟨by simp, ?_, ?_⟩
      · constructor
        · intro h
          exact absurd h (by simp)
        · rintro ⟨n2, hn2, hl2⟩
          injection hn2 with h3
          subst h3
          rw [hl] at hl2
          cases hl2
      · intro e h
        exact absurd h (by simp)

/-- A session directory whose current snapshot is at version 2 but whose
referenced retained file version_1.json has been pruned. -/
def prunedSiteJ : SiteJ :=
  { projectId := ""
    siteId := "s"
    name := ""
    version := 2
    history := { currentVersion := 2, previousVersionFile := some 1 }
    geometryLayers := []
    metadata := []
    attributes := []
    sessionId := some 7
    points := []
    segments := [] }

def prunedStore : Store := { current := some prunedSiteJ, versions := [] }

/-- Claim C7's "NoOp in both cases" is false on the code: with a pruned
reference, undo fails with the NotFound error (`GeometryNotFoundError`),
which is not the NoOp "No actions to undo" condition. -/
theorem C7_undo_pruned_counterexample :
    (undo prunedStore 7).2 = .error .notFound ∧
      (Except.error GeomErr.notFound : Except GeomErr Site) ≠
        .error .noUndo := by
  constructor
  · have hp : (load_current_geometry prunedStore 7).history.previousVersionFile =
        some 1 := by
      rw [load_current_some rfl 7, load_site_history]
      rfl
    rw [undo_eq_notFound hp rfl]
  · simp

/-! ### Claim C10 -/

/-- Claim C10: a successful undo writes only the current snapshot: the
retained version files — the association list of files on disk — are
exactly what they were before the call (so: the file undone from still
exists unchanged and no retention cleanup ran), and the new current
document is the storage form of the restored site. -/
theorem C10_undo_frame (st : Store) (sid : Int) (site : Site)
    (h : (undo st sid).2 = .ok site) :
    (undo st sid).1.versions = st.versions ∧
    (undo st sid).1.current = some (siteToStorage site) := by
  rcases hp : (load_current_geometry st sid).history.previousVersionFile with _ | n
  · rw [undo_eq_noUndo hp] at h
    exact absurd h (by simp)
  · rcases hl : lookupVersion st.versions n with _ | prevJ
    · rw [undo_eq_notFound hp hl] at h
      exact absurd h (by simp)
    · rw [undo_eq_ok hp hl] at h ⊢
      dsimp only at h ⊢
      injection h with h2
      subst h2
      exact ⟨rfl, rfl⟩

/-- A two-version directory on which undo succeeds. -/
def retainedSiteJ : SiteJ :=
  { projectId := ""
    siteId := "s"
    name := ""
    version := 1
    history := { currentVersion := 1, previousVersionFile := none }
    geometryLayers := []
    metadata := []
    attributes := []
    sessionId := some 7
    points := []
    segments := [] }

def undoableSiteJ : SiteJ :=
  { prunedSiteJ with siteId := "t" }

def undoableStore : Store :=
  { current := some undoableSiteJ, versions := [(1, retainedSiteJ)] }

/-- Witness for C10 at a concrete two-version directory. -/
theorem C10_undo_frame_witness :
    (undo undoableStore 7).1.versions = undoableStore.versions ∧
    (undo undoableStore 7).1.current = some (siteToStorage
      { _load_site_from_json retainedSiteJ 7 with
        version := (load_current_geometry undoableStore 7).version - 1 }) :=
  C10_undo_frame undoableStore 7 _ (by
    rw [undo_eq_ok
      ((by
        rw [load_current_some rfl 7, load_site_history]
        rfl) :
        (load_current_geometry undoableStore 7).history.previousVersionFile = some 1)
      (rfl : lookupVersion undoableStore.versions 1 = some retainedSiteJ)])

/-! ### Claim C8: legacy flat payload round trip -/

/-- A decoded line segment always carries a normalized azimuth; arcs
carry none. -/
def segNormalized : Seg → Prop
  | .line l => pymod360 l.azimuth = l.azimuth
  | .arc _ => True

lemma segFromStorage_normalized (j : SegJ) : segNormalized (segFromStorage j) := by
  cases j with
  | line j => exact pymod360_idem j.bearing
  | arc j => trivial

lemma segFromStorage_toStorage (sg : Seg) (h : segNormalized sg) :
    segFromStorage (segToStorage sg) = sg := by
  cases sg with
  | line l =>
    simp only [segToStorage, segFromStorage, mkLineSegment]
    rw [show pymod360 l.azimuth = l.azimuth from h]
  | arc a => rfl

lemma segFromStorage_id (j : SegJ) : (segFromStorage j).id = j.id := by
  cases j <;> rfl

/-- Decode–encode–decode is the identity on segment lists. -/
lemma map_seg_roundtrip (segs : List SegJ) :
    ((segs.map segFromStorage).map segToStorage).map segFromStorage =
      segs.map segFromStorage := by
  induction segs with
  | nil => rfl
  | cons j rest ih =>
    simp only [List.map_cons, ih]
    rw [segFromStorage_toStorage _ (segFromStorage_normalized j)]

/-- The segment extraction underlying `get_all_segments` and the
encoder's segment loop, as a function of the layer list. -/
def segsOfLayers (ls : List Layer) : List Seg :=
  (ls.map (fun l =>
    (l.parcels.map (fun p => (p.geometry.map Geometry.segments).getD [])).flatten)).flatten

lemma get_all_segments_eq (s : Site) :
    s.get_all_segments = segsOfLayers s.geometry_layers := rfl

lemma layerWithLegacy_default (segs : List SegJ) :
    layerWithLegacy defaultLayerNew segs =
      { defaultLayerNew with parcels := [{ defaultParcelNew with
          geometry := some { defaultGeometryNew with
            segments := segs.map segFromStorage } }] } := by
  simp [layerWithLegacy, parcelWithLegacy, appendLegacySegments, defaultLayerNew,
    defaultParcelNew, defaultGeometryNew]

/-- Decoding a flat legacy payload (no layers, some segments) produces
exactly the default layer/parcel/geometry chain holding the decoded
segments. -/
lemma flat_decode (d : SiteJ) (hflat : d.geometryLayers = [])
    (hne : ¬ d.segments.isEmpty) :
    siteFromStorage d =
      { id := d.siteId
        project_id := d.projectId
        name := d.name
        version := d.version
        history := d.history
        geometry_layers := [layerWithLegacy defaultLayerNew d.segments]
        points := d.points
        session_id := d.sessionId
        metadata := d.metadata
        attributes := d.attributes } := by
  unfold siteFromStorage
  dsimp only
  rw [if_neg hne, hflat]
  rfl

lemma flat_decode_empty (d : SiteJ) (hE : d.segments.isEmpty) :
    siteFromStorage d =
      { id := d.siteId
        project_id := d.projectId
        name := d.name
        version := d.version
        history := d.history
        geometry_layers := d.geometryLayers.map layerFromStorage
        points := d.points
        session_id := d.sessionId
        metadata := d.metadata
        attributes := d.attributes } := by
  unfold siteFromStorage
  dsimp only
  rw [if_pos hE]

/-- The storage round trip is the identity on the synthesized default
layer: every field the encoder drops is reinstated by the decoder with
exactly the value the synthesized layer carries. -/
lemma flatLayer_roundtrip (segs : List SegJ) :
    layerFromStorage (layerToStorage (layerWithLegacy defaultLayerNew segs)) =
      layerWithLegacy defaultLayerNew segs := by
  rw [layerWithLegacy_default]
  simp [layerFromStorage, layerToStorage, parcelToStorage, parcelFromStorage,
    geometryToStorage, geometryFromStorage, defaultLayerNew, defaultParcelNew,
    defaultGeometryNew, map_seg_roundtrip]
  exact fun a _ => segFromStorage_toStorage _ (segFromStorage_normalized a)

lemma filter_not_mem_self (L : List Seg) :
    L.filter (fun sg => decide (sg.id ∉ L.map Seg.id)) = [] := by
  rw [List.filter_eq_nil_iff]
  intro sg hsg
  simp only [decide_eq_true_eq]
  intro hnot
  exact hnot (List.mem_map_of_mem Seg.id hsg)

lemma flat_decode_get_all (p : SiteJ) (hflat : p.geometryLayers = []) :
    (siteFromStorage p).get_all_segments = p.segments.map segFromStorage := by
  by_cases hE : p.segments.isEmpty
  · rw [flat_decode_empty p hE, get_all_segments_eq]
    rw [List.isEmpty_iff.1 hE, hflat]
    rfl
  · rw [flat_decode p hflat hE, get_all_segments_eq, layerWithLegacy_default]
    simp [segsOfLayers]

lemma fromStorage_get_all (d : SiteJ) :
    (siteFromStorage d).get_all_segments =
      if d.segments.isEmpty then
        segsOfLayers (d.geometryLayers.map layerFromStorage)
      else segsOfLayers (attachLegacy d.segments (d.geometryLayers.map layerFromStorage)) := by
  unfold siteFromStorage
  dsimp only
  by_cases hE : d.segments.isEmpty <;> simp [hE, get_all_segments_eq]

lemma attachLegacy_default_head (segs2 : List SegJ) (l : Layer) (rest : List Layer)
    (hname : l.name = "Default Layer") :
    attachLegacy segs2 (l :: rest) = layerWithLegacy l segs2 :: rest := by
  unfold attachLegacy
  rw [if_pos hname]

lemma layerWithLegacy_flatLayer (segs segs2 : List SegJ) :
    layerWithLegacy (layerWithLegacy defaultLayerNew segs) segs2 =
      { defaultLayerNew with parcels := [{ defaultParcelNew with
          geometry := some { defaultGeometryNew with
            segments := segs.map segFromStorage ++
              (segs2.map segFromStorage).filter
                (fun sg => decide (sg.id ∉ (segs.map segFromStorage).map Seg.id)) } }] } := by
  rw [layerWithLegacy_default]
  simp [layerWithLegacy, parcelWithLegacy, appendLegacySegments]

lemma segsOfLayers_flatLayer (segs : List SegJ) :
    segsOfLayers [layerWithLegacy defaultLayerNew segs] = segs.map segFromStorage := by
  rw [layerWithLegacy_default]
  simp [segsOfLayers]

/-- Re-decoding the encoded form of a site holding the synthesized
default chain gives back the same segment list: the layer round trip
restores the chain, and when the top-level segment list is re-written
(session mode) the legacy branch filters every incoming id out. -/
lemma encode_decode_get_all (i pr nm : String) (v : Int) (h : History)
    (segs : List SegJ) (pts : List Point) (sid : Option Int) (md att : AttrMap)
    (hne : ¬ segs.isEmpty = true) :
    (siteFromStorage (siteToStorage
      { id := i
        project_id := pr
        name := nm
        version := v
        history := h
        geometry_layers := [layerWithLegacy defaultLayerNew segs]
        points := pts
        session_id := sid
        metadata := md
        attributes := att })).get_all_segments =
      segsOfLayers [layerWithLegacy defaultLayerNew segs] := by
  rw [fromStorage_get_all]
  rcases sid with _ | sd
  · rw [show (siteToStorage
      { id := i
        project_id := pr
        name := nm
        version := v
        history := h
        geometry_layers := [layerWithLegacy defaultLayerNew segs]
        points := pts
        session_id := none
        metadata := md
        attributes := att : Site }).segments = ([] : List SegJ) from rfl]
    rw [if_pos List.isEmpty_nil]
    rw [show (siteToStorage
      { id := i
        project_id := pr
        name := nm
        version := v
        history := h
        geometry_layers := [layerWithLegacy defaultLayerNew segs]
        points := pts
        session_id := none
        metadata := md
        attributes := att : Site }).geometryLayers.map layerFromStorage =
        [layerFromStorage (layerToStorage (layerWithLegacy defaultLayerNew segs))] from rfl]
    rw [flatLayer_roundtrip]
  · have hseg : (siteToStorage
      { id := i
        project_id := pr
        name := nm
        version := v
        history := h
        geometry_layers := [layerWithLegacy defaultLayerNew segs]
        points := pts
        session_id := some sd
        metadata := md
        attributes := att : Site }).segments =
        (segs.map segFromStorage).map segToStorage := by
      rw [show (siteToStorage
        { id := i
          project_id := pr
          name := nm
          version := v
          history := h
          geometry_layers := [layerWithLegacy defaultLayerNew segs]
          points := pts
          session_id := some sd
          metadata := md
          attributes := att : Site }).segments =
          (segsOfLayers [layerWithLegacy defaultLayerNew segs]).map segToStorage from rfl]
      rw [segsOfLayers_flatLayer]
    rw [hseg]
    rw [if_neg (by
      intro hh
      rw [List.isEmpty_iff, List.map_eq_nil_iff, List.map_eq_nil_iff] at hh
      exact hne (List.isEmpty_iff.2 hh))]
    rw [show (siteToStorage
      { id := i
        project_id := pr
        name := nm
        version := v
        history := h
        geometry_layers := [layerWithLegacy defaultLayerNew segs]
        points := pts
        session_id := some sd
        metadata := md
        attributes := att : Site }).geometryLayers.map layerFromStorage =
        [layerFromStorage (layerToStorage (layerWithLegacy defaultLayerNew segs))] from rfl]
    rw [flatLayer_roundtrip]
    rw [attachLegacy_default_head _ _ _ (by rw [layerWithLegacy_default]; rfl)]
    rw [layerWithLegacy_flatLayer]
    rw [segsOfLayers_flatLayer]
    simp only [segsOfLayers, List.map_cons, List.map_nil, List.flatten]
    rw [map_seg_roundtrip, filter_not_mem_self]
    simp [layerWithLegacy_default, segsOfLayers]

/-- Decode–encode–decode preserves the segment list of a flat legacy
payload. -/
lemma flat_roundtrip_segments (p : SiteJ) (hflat : p.geometryLayers = []) :
    (siteFromStorage (siteToStorage (siteFromStorage p))).get_all_segments =
      (siteFromStorage p).get_all_segments := by
  by_cases hE : p.segments.isEmpty
  · rw [flat_decode_empty p hE, hflat]
    rw [fromStorage_get_all]
    rcases hsid : p.sessionId with _ | sid <;>
      simp [siteToStorage, get_all_segments_eq, segsOfLayers]
  · rw [flat_decode p hflat hE]
    rw [encode_decode_get_all p.siteId p.projectId p.name p.version p.history
      p.segments p.points p.sessionId p.metadata p.attributes hE]
    rw [get_all_segments_eq]

lemma flat_decode_ids (p : SiteJ) (hflat : p.geometryLayers = []) :
    (siteFromStorage p).get_all_segments.map Seg.id = p.segments.map SegJ.id := by
  rw [flat_decode_get_all p hflat, List.map_map]
  exact List.map_congr_left fun j _ => segFromStorage_id j

/-- Claim C8, amended: decoding a legacy flat payload (top-level points
and segments, no layers), re-encoding it to storage form and decoding
again yields the identical segment list; and, provided the payload's
segment identifiers are pairwise distinct, the decoded site carries no
duplicate segment identifier.  (The distinctness proviso is forced: the
decoder computes its de-duplication set once, before appending, so
duplicates already inside the payload are all kept — see the
counterexample.) -/
theorem C8_legacy_roundtrip_amended (p : SiteJ)
    (hflat : p.geometryLayers = [])
    (hids : (p.segments.map SegJ.id).Nodup) :
    (siteFromStorage (siteToStorage (siteFromStorage p))).get_all_segments =
      (siteFromStorage p).get_all_segments ∧
    ((siteFromStorage p).get_all_segments.map Seg.id).Nodup := by
  refine ⟨flat_roundtrip_segments p hflat, ?_⟩
  rw [flat_decode_ids p hflat]
  exact hids

/-- A one-segment legacy flat payload. -/
def c8Payload : SiteJ :=
  { projectId := ""
    siteId := "site-1"
    name := ""
    version := 0
    history := { currentVersion := 0, previousVersionFile := none }
    geometryLayers := []
    metadata := []
    attributes := []
    sessionId := some 7
    points := []
    segments := [.line
      { id := "a"
        start := (0, 0)
        endp := (0, 1)
        bearing := 0
        length := 1
        layer := ""
        attributes := [] }] }

/-- Witness for C8 on the one-segment payload. -/
theorem C8_legacy_roundtrip_amended_witness :
    (siteFromStorage (siteToStorage (siteFromStorage c8Payload))).get_all_segments =
      (siteFromStorage c8Payload).get_all_segments ∧
    ((siteFromStorage c8Payload).get_all_segments.map Seg.id).Nodup :=
  C8_legacy_roundtrip_amended c8Payload rfl (by simp [c8Payload, SegJ.id])

/-- A flat payload whose two segments share the identifier "a". -/
def c8DupPayload : SiteJ :=
  { c8Payload with segments := [
      .line
        { id := "a"
          start := (0, 0)
          endp := (0, 1)
          bearing := 0
          length := 1
          layer := ""
          attributes := [] },
      .line
        { id := "a"
          start := (1, 1)
          endp := (2, 2)
          bearing := 0
          length := 2
          layer := ""
          attributes := [] }] }

/-- Claim C8's "no duplicate identifiers" part is false as stated: the
decoder computes its de-duplication set once, before its append loop, so
a flat payload whose two segments share the id "a" decodes — and round
trips unchanged — to a site with a duplicated segment identifier. -/
theorem C8_duplicate_ids_counterexample :
    (siteFromStorage (siteToStorage (siteFromStorage c8DupPayload))).get_all_segments.map
      Seg.id = ["a", "a"] ∧
    ¬ ((siteFromStorage (siteToStorage
      (siteFromStorage c8DupPayload))).get_all_segments.map Seg.id).Nodup := by
  have h1 : (siteFromStorage (siteToStorage
      (siteFromStorage c8DupPayload))).get_all_segments =
      (siteFromStorage c8DupPayload).get_all_segments :=
    flat_roundtrip_segments c8DupPayload rfl
  have h2 : (siteFromStorage c8DupPayload).get_all_segments.map Seg.id = ["a", "a"] := by
    rw [flat_decode_ids c8DupPayload rfl]
    rfl
  rw [h1, h2]
  exact ⟨rfl, by decide⟩

/-! ### Claim C3: add_segment -/

/-- `GeometryService._get_or_create_default_geometry` (lines 84-92)
followed by `geometry.add_segment` (append). -/
noncomputable def parcelAddSeg (p : Parcel) (seg : Seg) : Parcel :=
  match p.geometry with
  | some g => { p with geometry := some { g with segments := g.segments ++ [seg] } }
  | none => { p with geometry := some { defaultGeometryNew with segments := [seg] } }

/-- `GeometryService._get_or_create_default_parcel` (lines 70-82): the
layer's first parcel, else a fresh default parcel. -/
noncomputable def layerAddSeg (l : Layer) (seg : Seg) : Layer :=
  match l.parcels with
  | [] => { l with parcels := [parcelAddSeg defaultParcelNew seg] }
  | p :: rest => { l with parcels := parcelAddSeg p seg :: rest }

/-- `GeometryService._get_or_create_default_layer` (lines 54-68): the
first layer named "Default Layer" or typed "Boundary" receives the
segment, else a fresh default layer is appended. -/
noncomputable def serviceAttach (seg : Seg) : List Layer → List Layer
  | [] => [layerAddSeg defaultLayerNew seg]
  | l :: rest =>
    if l.name = "Default Layer" ∨ l.layer_type = "Boundary" then layerAddSeg l seg :: rest
    else l :: serviceAttach seg rest

noncomputable def siteAddSegDefaultChain (site : Site) (seg : Seg) : Site :=
  { site with geometry_layers := serviceAttach seg site.geometry_layers }

/-- `GeometryService.add_segment` (geometry_service.py lines 295-370)
for the default segment type "line".  Note the bearing it stores:
`degrees(atan2(dy, dx))`, brought into [0, 360) by adding 360 when
negative — the mathematical angle measured from East, not the azimuth
from North used everywhere else.  (The "arc" branch reads its extra
fields out of the free-form attributes and is exercised by no claim.) -/
noncomputable def add_segment (st : Store) (session_id : Int)
    (start_x start_y end_x end_y : ℝ) : Store × Site :=
  let site := load_current_geometry st session_id
  let site := if site.session_id.isNone then { site with session_id := some session_id }
    else site
  let dx := end_x - start_x
  let dy := end_y - start_y
  let length := Real.sqrt (dx ^ 2 + dy ^ 2)
  let bearing0 := degrees (atan2 dy dx)
  let bearing := if bearing0 < 0 then bearing0 + 360 else bearing0
  let new_segment : Seg := .line (mkLineSegment genSegmentId (start_x, start_y)
    (end_x, end_y) bearing length "" [])
  let site2 := siteAddSegDefaultChain site new_segment
  save_geometry st session_id site2

lemma add_segment_eq (st : Store) (sid : Int) (sx sy ex ey : ℝ) :
    add_segment st sid sx sy ex ey =
      save_geometry st sid (siteAddSegDefaultChain
        (let site := load_current_geometry st sid
         if site.session_id.isNone then { site with session_id := some sid } else site)
        (.line (mkLineSegment genSegmentId (sx, sy) (ex, ey)
          (if degrees (atan2 (ey - sy) (ex - sx)) < 0 then
            degrees (atan2 (ey - sy) (ex - sx)) + 360
          else degrees (atan2 (ey - sy) (ex - sx)))
          (Real.sqrt ((ex - sx) ^ 2 + (ey - sy) ^ 2)) "" []))) := rfl

/-- Claim C3 asks for azimuth 0 (due North) on the segment (0,0)→(0,10);
this theorem evaluates the code at that failing input: the stored
azimuth is 90 — `degrees(atan2(10, 0))`, the East-based mathematical
angle, stored without the (90 − angle) conversion used by the
recalculation path — while the length is 10.0 as claimed. -/
theorem C3_add_segment_code_behavior :
    ∃ ls : LineSeg,
      ((add_segment emptyStore 7 0 0 0 10).2).get_all_segments = [Seg.line ls] ∧
      ls.azimuth = 90 ∧ ls.length = 10 ∧ (90 : ℝ) ≠ 0 := by
  have hv0 : (load_current_geometry emptyStore 7).version = 0 := rfl
  rw [add_segment_eq]
  have hsite : (let site := load_current_geometry emptyStore 7
      if site.session_id.isNone then { site with session_id := some 7 } else site) =
      _create_empty_site 7 := rfl
  rw [hsite]
  have hbeq : (if degrees (atan2 ((10 : ℝ) - 0) ((0 : ℝ) - 0)) < 0 then
      degrees (atan2 ((10 : ℝ) - 0) ((0 : ℝ) - 0)) + 360
    else degrees (atan2 ((10 : ℝ) - 0) ((0 : ℝ) - 0))) = 90 := by
    rw [show ((10 : ℝ) - 0) = 10 by norm_num, show ((0 : ℝ) - 0) = 0 by norm_num,
      atan2_zero_pos 10 (by norm_num), degrees_pi_div_two]
    rw [if_neg (by norm_num)]
  rw [hbeq]
  have hleq : Real.sqrt (((0 : ℝ) - 0) ^ 2 + ((10 : ℝ) - 0) ^ 2) = 10 := by
    rw [show ((0 : ℝ) - 0) ^ 2 + ((10 : ℝ) - 0) ^ 2 = (10 : ℝ) ^ 2 by norm_num,
      Real.sqrt_sq (by norm_num : (0 : ℝ) ≤ 10)]
  rw [hleq]
  rw [save_geometry_nonpos emptyStore 7 _ (by rw [hv0]; norm_num)]
  refine ⟨mkLineSegment genSegmentId (0, 0) (0, 10) 90 10 "" [], rfl, ?_, rfl, by norm_num⟩
  show pymod360 90 = 90
  exact pymod360_eq_self (by norm_num) (by norm_num)

end DeedRec
